import Mathlib

/-!
# Verification of the Solana wagering program audit fixes

Shallow embedding of the wagering program's state machine and settlement
engine as documented in the repository (the audit report with its vulnerable
and fixed code snippets, plus the improved-code test suite).

Modelling conventions:
- Player identities are natural numbers; an empty team slot is `none`.
- Machine integers are `Nat` with explicit bound checks where the source
  performs checked arithmetic (`U32_MAX`, `U64_MAX`).
- An instruction is a function returning `Except WagerError _`; an error
  result means the instruction aborted and the game-session account is not
  persisted (Anchor serializes account mutations only on success), so the
  caller-observable session is unchanged on error.
- Token (CPI) transfers, in contrast, take effect as they are executed and
  are retained unless explicitly rolled back; this is the semantics the
  audit report itself uses (its finding 3.1 on partial distribution and the
  explicit rollback in its fixed distribute_winnings). The distribution
  functions therefore return, next to the instruction result, the list of
  transfers that remain executed.
- Fields of GameSession not needed by any verified property (session_id,
  authority, timestamps, PDA bumps) are elided; identity verification is an
  external service per the spec.
-/

namespace Wager

instance exceptDecEq {ε α : Type} [DecidableEq ε] [DecidableEq α] :
    DecidableEq (Except ε α) := fun x y =>
  match x, y with
  | .ok a, .ok b =>
    if h : a = b then .isTrue (by rw [h]) else .isFalse (by simp [h])
  | .error a, .error b =>
    if h : a = b then .isTrue (by rw [h]) else .isFalse (by simp [h])
  | .ok _, .error _ => .isFalse (by simp)
  | .error _, .ok _ => .isFalse (by simp)

def MAX_PLAYERS_PER_TEAM : Nat := 5

def U32_MAX : Nat := 4294967295

def U64_MAX : Nat := 18446744073709551615

def MAX_SPAWNS_PER_PLAYER : Nat := 100

inductive GameStatus where
  | WaitingForPlayers
  | InProgress
  | Completed
  | Distributed
deriving Repr, DecidableEq

inductive GameMode where
  | WinnerTakesAllOneVsOne
  | WinnerTakesAllThreeVsThree
  | WinnerTakesAllFiveVsFive
  | PayToSpawnOneVsOne
  | PayToSpawnThreeVsThree
  | PayToSpawnFiveVsFive
deriving Repr, DecidableEq

def GameMode.players_per_team : GameMode → Nat
  | .WinnerTakesAllOneVsOne => 1
  | .WinnerTakesAllThreeVsThree => 3
  | .WinnerTakesAllFiveVsFive => 5
  | .PayToSpawnOneVsOne => 1
  | .PayToSpawnThreeVsThree => 3
  | .PayToSpawnFiveVsFive => 5

def GameMode.is_pay_to_spawn : GameMode → Bool
  | .PayToSpawnOneVsOne => true
  | .PayToSpawnThreeVsThree => true
  | .PayToSpawnFiveVsFive => true
  | _ => false

/-- Modelled from the spec: the starting spawn count is a mode parameter
(spec 3: 10 for PayToSpawn, 1 for WinnerTakesAll; the create_game_session
snippet in the audit does not show the team initialisation). -/
def GameMode.starting_spawns : GameMode → Nat
  | .WinnerTakesAllOneVsOne => 1
  | .WinnerTakesAllThreeVsThree => 1
  | .WinnerTakesAllFiveVsFive => 1
  | .PayToSpawnOneVsOne => 10
  | .PayToSpawnThreeVsThree => 10
  | .PayToSpawnFiveVsFive => 10

inductive WagerError where
  | InvalidTeam
  | PlayerHasNoSpawns
  | KillCountOverflow
  | InvalidPlayerIndex
  | InsufficientVaultBalance
  | GameNotComplete
  | InvalidTeamSelection
  | PlayerAlreadyJoined
  | TeamIsFull
  | InvalidGameState
  | InvalidGameMode
  | ArithmeticError
  | MaxSpawnsExceeded
  | InsufficientUserBalance
  | UnauthorizedPayToSpawn
  | InvalidPlayer
  | TransferFailed
deriving Repr, DecidableEq

/-- One team: parallel slot arrays, as in the program's Team account struct
(players [Pubkey; 5], player_kills, player_spawns). -/
structure Team where
  players : List (Option Nat)
  player_kills : List Nat
  player_spawns : List Nat
deriving Repr, DecidableEq

structure GameSession where
  session_bet : Nat
  game_mode : GameMode
  team_a : Team
  team_b : Team
  status : GameStatus
  /-- Configurable spawn increment, the spawns_per_purchase field added by
  the audit's fix 3.4. -/
  spawns_per_purchase : Nat
deriving Repr, DecidableEq

def GameSession.kills_at (gs : GameSession) (team i : Nat) : Nat :=
  if team = 0 then gs.team_a.player_kills.getD i 0 else gs.team_b.player_kills.getD i 0

def GameSession.spawns_at (gs : GameSession) (team i : Nat) : Nat :=
  if team = 0 then gs.team_a.player_spawns.getD i 0 else gs.team_b.player_spawns.getD i 0

def incr_kill (t : Team) (i : Nat) : Team :=
  { t with player_kills := t.player_kills.set i (t.player_kills.getD i 0 + 1) }

def decr_spawn (t : Team) (i : Nat) : Team :=
  { t with player_spawns := t.player_spawns.set i (t.player_spawns.getD i 0 - 1) }

/-- Second half of the fixed add_kill (audit appendix A.1): the match on
victim_team that decrements the victim's spawns with underflow protection. -/
def add_kill_victim (gs : GameSession) (victim_team victim_player_index : Nat) :
    Except WagerError GameSession :=
  match victim_team with
  | 0 =>
    if 0 < gs.team_a.player_spawns.getD victim_player_index 0 then
      .ok { gs with team_a := decr_spawn gs.team_a victim_player_index }
    else .error .PlayerHasNoSpawns
  | 1 =>
    if 0 < gs.team_b.player_spawns.getD victim_player_index 0 then
      .ok { gs with team_b := decr_spawn gs.team_b victim_player_index }
    else .error .PlayerHasNoSpawns
  | _ => .error .InvalidTeam

/-- The fixed add_kill of audit appendix A.1: index validation, then the
killer-side kill increment guarded by the KillCountOverflow check against
u32::MAX, then the victim-side spawn decrement guarded by PlayerHasNoSpawns
(via add_kill_victim). -/
def add_kill (gs : GameSession)
    (killer_team killer_player_index victim_team victim_player_index : Nat) :
    Except WagerError GameSession :=
  if killer_player_index < MAX_PLAYERS_PER_TEAM then
    if victim_player_index < MAX_PLAYERS_PER_TEAM then
      match killer_team with
      | 0 =>
        if gs.team_a.player_kills.getD killer_player_index 0 < U32_MAX then
          add_kill_victim { gs with team_a := incr_kill gs.team_a killer_player_index }
            victim_team victim_player_index
        else .error .KillCountOverflow
      | 1 =>
        if gs.team_b.player_kills.getD killer_player_index 0 < U32_MAX then
          add_kill_victim { gs with team_b := incr_kill gs.team_b killer_player_index }
            victim_team victim_player_index
        else .error .KillCountOverflow
      | _ => .error .InvalidTeam
    else .error .InvalidPlayerIndex
  else .error .InvalidPlayerIndex

/-- Team.get_empty_slot: first empty slot among the first player_count slots,
TeamIsFull when none (the slot-search routine the audit's fixed
check_all_filled builds on). -/
def Team.get_empty_slot (t : Team) (player_count : Nat) : Except WagerError Nat :=
  match (List.range player_count).find? (fun i => (t.players.getD i none).isNone) with
  | some i => .ok i
  | none => .error .TeamIsFull

/-- The fixed check_all_filled (audit 2.2 recommended fix): both teams have
no empty slot among their players_per_team slots. -/
def check_all_filled (gs : GameSession) : Bool :=
  let player_count := gs.game_mode.players_per_team
  ((gs.team_a.get_empty_slot player_count).isOk = false)
    && ((gs.team_b.get_empty_slot player_count).isOk = false)

/-- Occurrences of player p across both teams' slot arrays. -/
def occ (p : Nat) (gs : GameSession) : Nat :=
  (gs.team_a.players ++ gs.team_b.players).count (some p)

def claim_slot (t : Team) (i : Nat) (p : Nat) (spawns0 : Nat) : Team :=
  { players := t.players.set i (some p),
    player_kills := t.player_kills.set i 0,
    player_spawns := t.player_spawns.set i spawns0 }

/-- The join_user handler, assembled from the audit's snippets: the status
and team-index validations (2.4 vulnerable code), the cross-team duplicate
check added by fix 2.4, the empty-slot search, the bet debit into the vault
(spec 4.2, via the external Ledger Adapter, modelled by the two balances),
the slot claim, and then — verbatim from the snippet at 1.3 — the status
update guarded by the NEGATED check_all_filled result. Returns the new
session, the user's balance and the vault balance. -/
def join_user (gs : GameSession) (player team : Nat)
    (user_balance vault_balance : Nat) :
    Except WagerError (GameSession × Nat × Nat) :=
  if gs.status ≠ .WaitingForPlayers then .error .InvalidGameState
  else if ¬ (team = 0 ∨ team = 1) then .error .InvalidTeamSelection
  else if some player ∈ gs.team_a.players ∨ some player ∈ gs.team_b.players then
    .error .PlayerAlreadyJoined
  else
    match (if team = 0 then gs.team_a else gs.team_b).get_empty_slot
        gs.game_mode.players_per_team with
    | .error e => .error e
    | .ok empty_index =>
      if user_balance < gs.session_bet then .error .InsufficientUserBalance
      else
        let gs1 :=
          if team = 0 then
            { gs with team_a :=
                claim_slot gs.team_a empty_index player gs.game_mode.starting_spawns }
          else
            { gs with team_b :=
                claim_slot gs.team_b empty_index player gs.game_mode.starting_spawns }
        let gs2 :=
          if ¬ check_all_filled gs1 then { gs1 with status := .InProgress } else gs1
        .ok (gs2, user_balance - gs.session_bet, vault_balance + gs.session_bet)

/-- The fixed add_spawns (audit 3.4 recommended fix): increment by the
configurable spawns_per_purchase field instead of a hardcoded 10. -/
def add_spawns (gs : GameSession) (team : Nat) (player_index : Nat) :
    Except WagerError GameSession :=
  let spawn_count := gs.spawns_per_purchase
  match team with
  | 0 => .ok { gs with team_a := { gs.team_a with
      player_spawns := gs.team_a.player_spawns.set player_index
        (gs.team_a.player_spawns.getD player_index 0 + spawn_count) } }
  | 1 => .ok { gs with team_b := { gs.team_b with
      player_spawns := gs.team_b.player_spawns.set player_index
        (gs.team_b.player_spawns.getD player_index 0 + spawn_count) } }
  | _ => .error .InvalidTeam

/-- Modelled from the spec: the pay_to_spawn instruction handler is absent
from the audit's snippets (only the state-level add_spawns method and the
test suite reference it). Preconditions follow spec 4.3 — status InProgress,
a PayToSpawn mode, the player occupying a slot of the named team — and the
per-player spawn cap follows the spec's MaxSpawnsExceeded clause together
with the test suite constant MAX_SPAWNS_PER_PLAYER = 100. The successful
path delegates to the add_spawns method from the source. -/
def pay_to_spawn (gs : GameSession) (player team : Nat) :
    Except WagerError GameSession :=
  if gs.status ≠ .InProgress then .error .InvalidGameState
  else if ¬ gs.game_mode.is_pay_to_spawn then .error .InvalidGameMode
  else if ¬ (team = 0 ∨ team = 1) then .error .InvalidTeamSelection
  else
    let t := if team = 0 then gs.team_a else gs.team_b
    match (List.range gs.game_mode.players_per_team).find?
        (fun i => t.players.getD i none = some player) with
    | none => .error .InvalidPlayer
    | some i =>
      if MAX_SPAWNS_PER_PLAYER < t.player_spawns.getD i 0 + gs.spawns_per_purchase then
        .error .MaxSpawnsExceeded
      else add_spawns gs team i

/-- The checked earnings computation of audit fix 2.3:
kills_and_spawns.checked_mul(session_bet).and_then(checked_div 10), with
ArithmeticError replacing a silent u64 wraparound. Division by the constant
10 cannot fail, so the only failure is multiplication overflow. -/
def checked_earnings (kills_and_spawns session_bet : Nat) : Except WagerError Nat :=
  if kills_and_spawns * session_bet ≤ U64_MAX then
    .ok (kills_and_spawns * session_bet / 10)
  else .error .ArithmeticError

/-- Occupied players of a team's first player_count slots. -/
def occupied_players (t : Team) (player_count : Nat) : List Nat :=
  (List.range player_count).filterMap (fun i => t.players.getD i none)

/-- The (player, kills_and_spawns) pairs the pay-spawn distribution loop
iterates over: each occupied slot across both teams, paired with the slot's
kills + spawns (the program's get_all_players / get_kills_and_spawns pair,
read off per slot). -/
def pay_spawn_slots (gs : GameSession) : List (Nat × Nat) :=
  let pc := gs.game_mode.players_per_team
  ((List.range pc).filterMap (fun i =>
      (gs.team_a.players.getD i none).map
        (fun p => (p, gs.team_a.player_kills.getD i 0 + gs.team_a.player_spawns.getD i 0))))
    ++ ((List.range pc).filterMap (fun i =>
      (gs.team_b.players.getD i none).map
        (fun p => (p, gs.team_b.player_kills.getD i 0 + gs.team_b.player_spawns.getD i 0))))

/-- The payout a single (player, kills_and_spawns) slot receives under the
pay-spawn formula: nothing when kills_and_spawns is zero or the earnings
floor to zero, else floor(kills_and_spawns * bet / 10). -/
def payout_entry (bet : Nat) (pk : Nat × Nat) : Option (Nat × Nat) :=
  if pk.2 = 0 then none
  else if pk.2 * bet / 10 = 0 then none
  else some (pk.1, pk.2 * bet / 10)

/-- The payouts the pay-spawn distribution actually sends when it runs to
completion: occupied slots with nonzero kills_and_spawns and nonzero
earnings, each paid floor(kills_and_spawns * bet / 10). -/
def expected_pay_spawn_payouts (gs : GameSession) : List (Nat × Nat) :=
  (pay_spawn_slots gs).filterMap (payout_entry gs.session_bet)

/-- The transfer loop of the fixed distribute_pay_spawn_earnings (audit 1.2
vulnerable body with the 1.2 balance check and the 2.3 checked arithmetic
applied): per player, skip zero kills_and_spawns, compute checked earnings,
skip zero earnings, require the current vault balance to cover THIS transfer
(InsufficientVaultBalance otherwise), then execute the transfer. The fail
oracle models the external Ledger Adapter refusing a transfer. There is no
rollback in this function: transfers already executed stay in the returned
list even when a later step errors. Returns (final vault or error, executed
transfers). -/
def pay_spawn_loop (bet : Nat) (fail : Nat → Bool) :
    List (Nat × Nat) → Nat → Nat → List (Nat × Nat) →
    Except WagerError Nat × List (Nat × Nat)
  | [], _, vault, paid => (.ok vault, paid)
  | (p, ks) :: rest, i, vault, paid =>
    if ks = 0 then pay_spawn_loop bet fail rest (i + 1) vault paid
    else
      match checked_earnings ks bet with
      | .error e => (.error e, paid)
      | .ok earnings =>
        if earnings = 0 then pay_spawn_loop bet fail rest (i + 1) vault paid
        else if vault < earnings then (.error .InsufficientVaultBalance, paid)
        else if fail i then (.error .TransferFailed, paid)
        else pay_spawn_loop bet fail rest (i + 1) (vault - earnings) (paid ++ [(p, earnings)])

/-- The fixed distribute_pay_spawn_earnings instruction. Note that, exactly
as in the source snippets, it performs NO status update: the session record
is returned unchanged on success. -/
def distribute_pay_spawn_earnings (gs : GameSession) (vault_balance : Nat)
    (fail : Nat → Bool) :
    Except WagerError (GameSession × Nat) × List (Nat × Nat) :=
  match pay_spawn_loop gs.session_bet fail (pay_spawn_slots gs) 0 vault_balance [] with
  | (.ok vault, paid) => (.ok (gs, vault), paid)
  | (.error e, paid) => (.error e, paid)

/-- The winner-takes-all payout plan: each occupied slot of the winning team
is paid session_bet * 2 (the loop body of distribute_all_winnings_handler). -/
def winning_team_payouts (gs : GameSession) (winning_team : Nat) : List (Nat × Nat) :=
  let t := if winning_team = 0 then gs.team_a else gs.team_b
  (occupied_players t gs.game_mode.players_per_team).map
    (fun p => (p, gs.session_bet * 2))

/-- Whether every transfer of the batch succeeds, indexing the fail oracle
by position. -/
def batch_all_ok (fail : Nat → Bool) : Nat → List (Nat × Nat) → Bool
  | _, [] => true
  | i, _ :: rest => !fail i && batch_all_ok fail (i + 1) rest

/-- The secure distribute_winnings of audit appendix A.2: require the game
Completed, compute the full distribution and its total, require
vault_balance to cover the total (InsufficientVaultBalance otherwise), then
execute the batch; on any transfer failure every successful transfer is
rolled back (so the executed-transfer list is empty) and the instruction
errors; on full success the status becomes Distributed. Returns (result
session and vault or error, transfers retained). -/
def distribute_winnings (gs : GameSession) (winning_team : Nat)
    (vault_balance : Nat) (fail : Nat → Bool) :
    Except WagerError (GameSession × Nat) × List (Nat × Nat) :=
  if gs.status ≠ .Completed then (.error .GameNotComplete, [])
  else
    let plan := winning_team_payouts gs winning_team
    let total := (plan.map Prod.snd).sum
    if vault_balance < total then (.error .InsufficientVaultBalance, [])
    else if batch_all_ok fail 0 plan then
      (.ok ({ gs with status := .Distributed }, vault_balance - total), plan)
    else (.error .TransferFailed, [])

/-! ## Concrete sessions used by scenario theorems, witnesses and
counterexamples -/

def emptyTeam : Team :=
  { players := [none, none, none, none, none],
    player_kills := [0, 0, 0, 0, 0],
    player_spawns := [0, 0, 0, 0, 0] }

/-- A freshly created 1v1 WinnerTakesAll session with bet 1000. -/
def sFresh1v1 : GameSession :=
  { session_bet := 1000, game_mode := .WinnerTakesAllOneVsOne,
    team_a := emptyTeam, team_b := emptyTeam,
    status := .WaitingForPlayers, spawns_per_purchase := 10 }

/-- The same session with player 1 occupying team A's single slot and only
team B's slot still empty. -/
def sHalf1v1 : GameSession :=
  { sFresh1v1 with
    team_a := { emptyTeam with players := [some 1, none, none, none, none] } }

/-- A Completed 1v1 WinnerTakesAll session, bet 1000, both players joined
(player 1 on team A with the recorded kill, player 2 on team B eliminated). -/
def sWTAComplete : GameSession :=
  { session_bet := 1000, game_mode := .WinnerTakesAllOneVsOne,
    team_a := { players := [some 1, none, none, none, none],
                player_kills := [1, 0, 0, 0, 0],
                player_spawns := [1, 0, 0, 0, 0] },
    team_b := { players := [some 2, none, none, none, none],
                player_kills := [0, 0, 0, 0, 0],
                player_spawns := [0, 0, 0, 0, 0] },
    status := .Completed, spawns_per_purchase := 10 }

/-- A Completed PayToSpawn 1v1 session with bet 100; each player has
kills + spawns = 6, so each earns floor(6 * 100 / 10) = 60 and the full
distribution totals 120. -/
def sPTSComplete : GameSession :=
  { session_bet := 100, game_mode := .PayToSpawnOneVsOne,
    team_a := { players := [some 1, none, none, none, none],
                player_kills := [2, 0, 0, 0, 0],
                player_spawns := [4, 0, 0, 0, 0] },
    team_b := { players := [some 2, none, none, none, none],
                player_kills := [1, 0, 0, 0, 0],
                player_spawns := [5, 0, 0, 0, 0] },
    status := .Completed, spawns_per_purchase := 10 }

/-- An InProgress PayToSpawn 1v1 session, both players at 10 spawns. -/
def sPTSProg : GameSession :=
  { session_bet := 1000, game_mode := .PayToSpawnOneVsOne,
    team_a := { players := [some 1, none, none, none, none],
                player_kills := [0, 0, 0, 0, 0],
                player_spawns := [10, 0, 0, 0, 0] },
    team_b := { players := [some 2, none, none, none, none],
                player_kills := [0, 0, 0, 0, 0],
                player_spawns := [10, 0, 0, 0, 0] },
    status := .InProgress, spawns_per_purchase := 10 }

/-- n successive RecordKill operations, player 1 (team 0 slot 0) killing
player 2 (team 1 slot 0) each time. -/
def kill_chain (gs : GameSession) : Nat → Except WagerError GameSession
  | 0 => .ok gs
  | n + 1 => (kill_chain gs n).bind (fun s => add_kill s 0 0 1 0)

/-- The session state after the 10 successful kills of scenario C. -/
def sAfterTenKills : GameSession :=
  { session_bet := 1000, game_mode := .PayToSpawnOneVsOne,
    team_a := { players := [some 1, none, none, none, none],
                player_kills := [10, 0, 0, 0, 0],
                player_spawns := [10, 0, 0, 0, 0] },
    team_b := { players := [some 2, none, none, none, none],
                player_kills := [0, 0, 0, 0, 0],
                player_spawns := [0, 0, 0, 0, 0] },
    status := .InProgress, spawns_per_purchase := 10 }

/-! ## Helper lemmas -/

theorem add_kill_victim_ne_overflow (gs : GameSession) (vt vi : Nat) :
    add_kill_victim gs vt vi ≠ .error .KillCountOverflow := by
  rcases vt with _ | _ | vt <;> simp only [add_kill_victim] <;> (try split_ifs) <;> simp

theorem count_set_le_succ {α : Type} [BEq α] [LawfulBEq α] (l : List α) (i : Nat)
    (a b : α) : (l.set i a).count b ≤ l.count b + 1 := by
  rcases Nat.lt_or_ge i l.length with h | h
  · rw [List.count_set a b l i h]
    split_ifs <;> omega
  · rw [List.set_eq_of_length_le h]
    omega

theorem count_set_le_of_ne {α : Type} [BEq α] [LawfulBEq α] (l : List α) (i : Nat)
    {a b : α} (h : a ≠ b) : (l.set i a).count b ≤ l.count b := by
  rcases Nat.lt_or_ge i l.length with hlt | hge
  · rw [List.count_set a b l i hlt]
    have hab : (a == b) = false := beq_eq_false_iff_ne.mpr h
    simp only [hab, Bool.false_eq_true, if_false, ite_false]
    split_ifs <;> omega
  · rw [List.set_eq_of_length_le hge]

theorem occ_claim_a (gs : GameSession) (i p s0 q : Nat)
    (hna : some p ∉ gs.team_a.players) (hnb : some p ∉ gs.team_b.players)
    (hocc : occ q gs ≤ 1) :
    occ q { gs with team_a := claim_slot gs.team_a i p s0 } ≤ 1 := by
  by_cases hq : q = p
  · subst hq
    have ha : gs.team_a.players.count (some q) = 0 := List.count_eq_zero.mpr hna
    have hb : gs.team_b.players.count (some q) = 0 := List.count_eq_zero.mpr hnb
    have hs := count_set_le_succ gs.team_a.players i (some q) (some q)
    simp only [occ, claim_slot, List.count_append] at *
    omega
  · have hne : (some p : Option Nat) ≠ some q := fun hqq => hq (Option.some.inj hqq).symm
    have h1 := count_set_le_of_ne gs.team_a.players i hne
    simp only [occ, claim_slot, List.count_append] at *
    omega

theorem occ_claim_b (gs : GameSession) (i p s0 q : Nat)
    (hna : some p ∉ gs.team_a.players) (hnb : some p ∉ gs.team_b.players)
    (hocc : occ q gs ≤ 1) :
    occ q { gs with team_b := claim_slot gs.team_b i p s0 } ≤ 1 := by
  by_cases hq : q = p
  · subst hq
    have ha : gs.team_a.players.count (some q) = 0 := List.count_eq_zero.mpr hna
    have hb : gs.team_b.players.count (some q) = 0 := List.count_eq_zero.mpr hnb
    have hs := count_set_le_succ gs.team_b.players i (some q) (some q)
    simp only [occ, claim_slot, List.count_append] at *
    omega
  · have hne : (some p : Option Nat) ≠ some q := fun hqq => hq (Option.some.inj hqq).symm
    have h1 := count_set_le_of_ne gs.team_b.players i hne
    simp only [occ, claim_slot, List.count_append] at *
    omega

theorem pay_spawn_loop_spec (bet : Nat) (fail : Nat → Bool) (plan : List (Nat × Nat)) :
    ∀ i vault acc,
      (∃ n, (pay_spawn_loop bet fail plan i vault acc).2
          = acc ++ (plan.filterMap (payout_entry bet)).take n)
    ∧ (∀ v, (pay_spawn_loop bet fail plan i vault acc).1 = .ok v →
        (pay_spawn_loop bet fail plan i vault acc).2
          = acc ++ plan.filterMap (payout_entry bet)) := by
  induction plan with
  | nil =>
    intro i vault acc
    exact ⟨⟨0, by simp [pay_spawn_loop]⟩, fun v hv => by simp [pay_spawn_loop]⟩
  | cons head rest ih =>
    rcases head with ⟨p, ks⟩
    intro i vault acc
    by_cases hks : ks = 0
    · subst hks
      simpa [pay_spawn_loop, payout_entry] using ih (i + 1) vault acc
    · rcases hover : checked_earnings ks bet with e | earnings
      · refine ⟨⟨0, ?_⟩, fun v hv => ?_⟩
        · simp [pay_spawn_loop, hks, hover]
        · simp [pay_spawn_loop, hks, hover] at hv
      · have hearn : earnings = ks * bet / 10 := by
          simp only [checked_earnings] at hover
          split_ifs at hover with h
          exact (Except.ok.inj hover).symm
        by_cases hz : earnings = 0
        · have hpe : payout_entry bet (p, ks) = none := by
            simp [payout_entry, hks, ← hearn, hz]
          have hstep : pay_spawn_loop bet fail ((p, ks) :: rest) i vault acc
              = pay_spawn_loop bet fail rest (i + 1) vault acc := by
            simp [pay_spawn_loop, hks, hover, hz]
          rw [hstep, List.filterMap_cons, hpe]
          exact ih (i + 1) vault acc
        · have hpe : payout_entry bet (p, ks) = some (p, earnings) := by
            simp [payout_entry, hks, ← hearn, hz]
          by_cases hvlt : vault < earnings
          · refine ⟨⟨0, ?_⟩, fun v hv => ?_⟩
            · simp [pay_spawn_loop, hks, hover, hz, hvlt]
            · simp [pay_spawn_loop, hks, hover, hz, hvlt] at hv
          · by_cases hf : fail i = true
            · refine ⟨⟨0, ?_⟩, fun v hv => ?_⟩
              · simp [pay_spawn_loop, hks, hover, hz, hvlt, hf]
              · simp [pay_spawn_loop, hks, hover, hz, hvlt, hf] at hv
            · have hstep : pay_spawn_loop bet fail ((p, ks) :: rest) i vault acc
                  = pay_spawn_loop bet fail rest (i + 1) (vault - earnings)
                      (acc ++ [(p, earnings)]) := by
                simp [pay_spawn_loop, hks, hover, hz, hvlt, hf]
              rw [hstep]
              obtain ⟨⟨n, hn⟩, hok⟩ := ih (i + 1) (vault - earnings) (acc ++ [(p, earnings)])
              refine ⟨⟨n + 1, ?_⟩, fun v hv => ?_⟩
              · rw [hn, List.filterMap_cons, hpe, List.take_succ_cons, List.append_assoc]
                rfl
              · rw [hok v hv, List.filterMap_cons, hpe, List.append_assoc]
                rfl

theorem distribute_pay_spawn_paid_eq (gp : GameSession) (vbp : Nat)
    (failp : Nat → Bool) :
    (distribute_pay_spawn_earnings gp vbp failp).2
      = (pay_spawn_loop gp.session_bet failp (pay_spawn_slots gp) 0 vbp []).2 := by
  rcases hL : pay_spawn_loop gp.session_bet failp (pay_spawn_slots gp) 0 vbp []
    with ⟨res, paid⟩
  rcases res with e | v <;> simp [distribute_pay_spawn_earnings, hL]

/-! ## Claim theorems -/

/-- C3: scenario C — in a PayToSpawn session whose victim starts with 10
spawns, 10 RecordKill operations succeed, leaving the killer's kill counter
at 10 and the victim's spawns at 0; the 11th attempt fails with
PlayerHasNoSpawns, and since a failed instruction persists nothing the
session the caller observes is exactly the state after the 10 successful
kills — in particular the killer's kill counter is still 10, not 11. -/
theorem claim_C3_record_kill_failure_no_partial_state :
    kill_chain sPTSProg 10 = .ok sAfterTenKills
  ∧ sAfterTenKills.team_a.player_kills.getD 0 0 = 10
  ∧ sAfterTenKills.team_b.player_spawns.getD 0 0 = 0
  ∧ add_kill sAfterTenKills 0 0 1 0 = .error .PlayerHasNoSpawns := by
  decide

/-- C6: the claim says the WaitingForPlayers to InProgress transition fires
exactly when a successful join fills the last empty slot. The code at
src/unnamed/part_000 lines 218-224 guards the status update by the NEGATED
check_all_filled result, so it does the opposite: a first join into a fresh
1v1 session (leaving team B's slot empty) already flips the status to
InProgress, while the join that fills the last slot leaves the status at
WaitingForPlayers. This contradicts the repository's own test suite
(edge-cases.ts, Should handle game state transitions atomically), which
asserts WaitingForPlayers after the first join and InProgress only after
the last slot fills. -/
theorem claim_C6_status_update_negated :
    (∃ r, join_user sFresh1v1 1 0 5000 0 = .ok r
        ∧ r.1.team_b.players.getD 0 none = none
        ∧ check_all_filled r.1 = false
        ∧ r.1.status = .InProgress)
  ∧ (∃ r, join_user sHalf1v1 2 1 5000 1000 = .ok r
        ∧ check_all_filled r.1 = true
        ∧ r.1.status = .WaitingForPlayers) := by
  exact ⟨⟨_, rfl, rfl, rfl, rfl⟩, ⟨_, rfl, rfl, rfl⟩⟩

/-- C1 counterexample: in the Completed PayToSpawn session sPTSComplete the
payouts total 120 while the vault holds only 100, yet
distribute_pay_spawn_earnings executes the first transfer (60 to player 1)
before failing with InsufficientVaultBalance — refuting the claim that no
transfer at all executes when the total of payouts exceeds the vault
balance. -/
theorem claim_C1_counterexample_partial_transfer :
    (100 < ((expected_pay_spawn_payouts sPTSComplete).map Prod.snd).sum)
  ∧ distribute_pay_spawn_earnings sPTSComplete 100 (fun _ => false)
      = (.error .InsufficientVaultBalance, [(1, 60)]) := by
  decide

/-- C7 counterexample: distribute_pay_spawn_earnings succeeds on the
Completed session sPTSComplete with an ample vault, yet returns the session
unchanged — its status is still Completed, not Distributed, refuting the
claim that a fully successful DistributePaySpawnEarnings sets the status to
Distributed. -/
theorem claim_C7_counterexample_no_status_advance :
    (distribute_pay_spawn_earnings sPTSComplete 200 (fun _ => false)).1
      = .ok (sPTSComplete, 80)
  ∧ sPTSComplete.status = .Completed
  ∧ sPTSComplete.status ≠ .Distributed := by
  decide

/-- C2: against any victim slot whose spawn counter is zero the fixed
add_kill fails with PlayerHasNoSpawns (given that the call reaches the
victim check: valid indices, valid team numbers, killer counter below the
u32 cap); when the victim's spawn counter is positive the call succeeds and
decrements it by exactly one — in particular it is never decremented below
zero, since a successful call requires a positive counter. -/
theorem claim_C2_spawn_underflow_guard (gs : GameSession) (kt ki vt vi : Nat)
    (hki : ki < MAX_PLAYERS_PER_TEAM) (hvi : vi < MAX_PLAYERS_PER_TEAM)
    (hkt : kt = 0 ∨ kt = 1) (hvt : vt = 0 ∨ vt = 1)
    (hk32 : gs.kills_at kt ki < U32_MAX)
    (hvlen : vi < (if vt = 0 then gs.team_a else gs.team_b).player_spawns.length) :
    (gs.spawns_at vt vi = 0 → add_kill gs kt ki vt vi = .error .PlayerHasNoSpawns)
  ∧ (0 < gs.spawns_at vt vi →
      ∃ gs', add_kill gs kt ki vt vi = .ok gs'
        ∧ gs'.spawns_at vt vi = gs.spawns_at vt vi - 1)
  ∧ (∀ gs', add_kill gs kt ki vt vi = .ok gs' →
      0 < gs.spawns_at vt vi ∧ gs'.spawns_at vt vi = gs.spawns_at vt vi - 1) := by
  rcases hkt with rfl | rfl <;> rcases hvt with rfl | rfl <;>
    simp only [GameSession.kills_at, GameSession.spawns_at, eq_self_iff_true, one_ne_zero,
      if_true, if_false, ite_true, ite_false, reduceIte] at hk32 hvlen ⊢ <;>
    simp only [add_kill, add_kill_victim, incr_kill, decr_spawn, hki, hvi, hk32, if_true,
      ite_true, eq_self_iff_true, one_ne_zero, if_false, ite_false, reduceIte] <;>
    split_ifs with hs
  all_goals first
    | exact ⟨fun h0 => absurd hs (by omega),
        fun hpos =>
          ⟨_, rfl, by simp [List.getD_eq_getElem?_getD, List.getElem?_set_self hvlen]⟩,
        fun gs' hok => by
          cases hok
          exact ⟨hs, by simp [List.getD_eq_getElem?_getD, List.getElem?_set_self hvlen]⟩⟩
    | exact ⟨fun h0 => rfl, fun hpos => absurd hpos hs, fun gs' hok => nomatch hok⟩

theorem claim_C2_witness :
    (0 < sPTSProg.spawns_at 1 0
      ∧ ∃ gs', add_kill sPTSProg 0 0 1 0 = .ok gs'
          ∧ gs'.spawns_at 1 0 = sPTSProg.spawns_at 1 0 - 1)
  ∧ (sAfterTenKills.spawns_at 1 0 = 0
      ∧ add_kill sAfterTenKills 0 0 1 0 = .error .PlayerHasNoSpawns) :=
  ⟨⟨by decide, (claim_C2_spawn_underflow_guard sPTSProg 0 0 1 0 (by decide) (by decide)
      (Or.inl rfl) (Or.inr rfl) (by decide) (by decide)).2.1 (by decide)⟩,
   ⟨by decide, (claim_C2_spawn_underflow_guard sAfterTenKills 0 0 1 0 (by decide)
      (by decide) (Or.inl rfl) (Or.inr rfl) (by decide) (by decide)).1 (by decide)⟩⟩

/-- C10: in the fixed add_kill, the KillCountOverflow guard fires exactly
when the killer's current kill counter has reached u32::MAX = 4294967295
(equivalently, it admits the increment iff the counter is strictly below
that bound), given valid slot indices; consequently for any counter value
at or below 65535 — the bound the test suite asserts — the guard never
fires. -/
theorem claim_C10_kill_count_guard (gs : GameSession) (kt ki vt vi : Nat)
    (hki : ki < MAX_PLAYERS_PER_TEAM) (hvi : vi < MAX_PLAYERS_PER_TEAM)
    (hkt : kt = 0 ∨ kt = 1) :
    (add_kill gs kt ki vt vi = .error .KillCountOverflow ↔ U32_MAX ≤ gs.kills_at kt ki)
  ∧ (gs.kills_at kt ki ≤ 65535 →
      add_kill gs kt ki vt vi ≠ .error .KillCountOverflow) := by
  have hmain : add_kill gs kt ki vt vi = .error .KillCountOverflow
      ↔ U32_MAX ≤ gs.kills_at kt ki := by
    rcases hkt with rfl | rfl <;>
      simp only [GameSession.kills_at, eq_self_iff_true, one_ne_zero, if_true, if_false,
        ite_true, ite_false, reduceIte] <;>
      simp only [add_kill, hki, hvi, if_true, ite_true, reduceIte] <;>
      split_ifs with hlt
    all_goals first
      | exact iff_of_false (add_kill_victim_ne_overflow _ _ _) (by omega)
      | exact iff_of_true rfl (by omega)
  exact ⟨hmain, fun h65 hov => by have h := hmain.mp hov; simp [U32_MAX] at h; omega⟩

theorem claim_C10_witness :
    sPTSProg.kills_at 0 0 ≤ 65535
  ∧ add_kill sPTSProg 0 0 1 0 ≠ .error .KillCountOverflow :=
  ⟨by decide, (claim_C10_kill_count_guard sPTSProg 0 0 1 0 (by decide) (by decide)
      (Or.inl rfl)).2 (by decide)⟩

/-- C5: a join by a player already occupying a slot in either team fails
with PlayerAlreadyJoined (for either target team, in a joinable session),
and — since a failed instruction changes nothing — the at-most-one-slot
invariant is preserved: any successful join keeps every player identity in
at most one slot across both teams. -/
theorem claim_C5_duplicate_join_check (gs : GameSession) (p team ub vb : Nat)
    (hstatus : gs.status = .WaitingForPlayers) (hteam : team = 0 ∨ team = 1) :
    ((some p ∈ gs.team_a.players ∨ some p ∈ gs.team_b.players) →
      join_user gs p team ub vb = .error .PlayerAlreadyJoined)
  ∧ (∀ q r, join_user gs p team ub vb = .ok r → occ q gs ≤ 1 → occ q r.1 ≤ 1) := by
  constructor
  · intro hdup
    rcases hteam with rfl | rfl <;> simp [join_user, hstatus, hdup]
  · intro q r hok hocc
    rcases hteam with rfl | rfl <;>
      simp only [join_user, hstatus, ne_eq, not_true_eq_false, if_false, ite_false,
        reduceIte, eq_self_iff_true, one_ne_zero, or_true, true_or, not_true,
        not_false_iff, if_true, ite_true] at hok
    all_goals (
      split at hok
      · exact nomatch hok
      · rename_i hdup
        rw [not_or] at hdup
        split at hok
        · exact nomatch hok
        · split at hok
          · exact nomatch hok
          · cases hok
            split
            all_goals first
              | exact occ_claim_a gs _ p _ _ hdup.1 hdup.2 hocc
              | exact occ_claim_b gs _ p _ _ hdup.1 hdup.2 hocc)

theorem claim_C5_witness :
    (some 1 ∈ sHalf1v1.team_a.players ∨ some 1 ∈ sHalf1v1.team_b.players)
  ∧ join_user sHalf1v1 1 1 5000 1000 = .error .PlayerAlreadyJoined :=
  ⟨by decide, (claim_C5_duplicate_join_check sHalf1v1 1 1 5000 1000 rfl
      (Or.inr rfl)).1 (by decide)⟩

/-- Case analysis of the secure distribute_winnings (audit appendix A.2):
either the vault cannot cover the computed total and the instruction fails
with InsufficientVaultBalance retaining no transfer, or every transfer
succeeds and the full plan is retained with the status advanced, or a
transfer fails and the rollback retains nothing. -/
theorem distribute_winnings_cases (gs : GameSession) (wt vb : Nat) (fail : Nat → Bool)
    (hstatus : gs.status = .Completed) :
    (vb < ((winning_team_payouts gs wt).map Prod.snd).sum
      ∧ distribute_winnings gs wt vb fail = (.error .InsufficientVaultBalance, []))
  ∨ (¬ vb < ((winning_team_payouts gs wt).map Prod.snd).sum
      ∧ batch_all_ok fail 0 (winning_team_payouts gs wt) = true
      ∧ distribute_winnings gs wt vb fail
        = (.ok ({ gs with status := .Distributed },
            vb - ((winning_team_payouts gs wt).map Prod.snd).sum),
           winning_team_payouts gs wt))
  ∨ (¬ vb < ((winning_team_payouts gs wt).map Prod.snd).sum
      ∧ ¬ batch_all_ok fail 0 (winning_team_payouts gs wt) = true
      ∧ distribute_winnings gs wt vb fail = (.error .TransferFailed, [])) := by
  simp only [distribute_winnings, hstatus, ne_eq, not_true_eq_false, if_false,
    ite_false, reduceIte]
  split_ifs with h1 h2
  · exact Or.inl ⟨h1, rfl⟩
  · exact Or.inr (Or.inl ⟨h1, h2, rfl⟩)
  · exact Or.inr (Or.inr ⟨h1, h2, rfl⟩)

/-- A successful distribute_pay_spawn_earnings returns the session unchanged
and has paid exactly the expected payout list. -/
theorem distribute_pay_spawn_ok_paid (gp : GameSession) (vbp : Nat) (failp : Nat → Bool) :
    ∀ s v, (distribute_pay_spawn_earnings gp vbp failp).1 = .ok (s, v) →
      s = gp ∧ (distribute_pay_spawn_earnings gp vbp failp).2
        = expected_pay_spawn_payouts gp := by
  intro s v hok
  obtain ⟨hpre, hfull⟩ :=
    pay_spawn_loop_spec gp.session_bet failp (pay_spawn_slots gp) 0 vbp []
  rcases hL : pay_spawn_loop gp.session_bet failp (pay_spawn_slots gp) 0 vbp []
    with ⟨res, paid⟩
  rcases res with e | vlt
  · simp [distribute_pay_spawn_earnings, hL] at hok
  · simp only [distribute_pay_spawn_earnings, hL] at hok
    have h := Except.ok.inj hok
    injection h with h1 h2
    subst h1
    refine ⟨rfl, ?_⟩
    have hpaid := hfull vlt (by rw [hL])
    rw [hL] at hpaid
    simp only [distribute_pay_spawn_earnings, hL]
    simpa [expected_pay_spawn_payouts] using hpaid

/-- C8: for a Completed PayToSpawn session, whenever
DistributePaySpawnEarnings runs to full success the list of executed
payouts is exactly one entry of floor((kills + spawns) * bet_amount / 10)
per occupied slot with nonzero kills + spawns (and nonzero floor), and
nothing for zero slots; and the earnings computation is the checked one,
failing with ArithmeticError whenever the multiplication would exceed
u64::MAX instead of wrapping. -/
theorem claim_C8_pay_spawn_earnings_formula (gs : GameSession) (vb : Nat)
    (fail : Nat → Bool) (hstatus : gs.status = .Completed)
    (hmode : gs.game_mode.is_pay_to_spawn = true) :
    (∀ s v, (distribute_pay_spawn_earnings gs vb fail).1 = .ok (s, v) →
      (distribute_pay_spawn_earnings gs vb fail).2 = expected_pay_spawn_payouts gs)
  ∧ (∀ ks, U64_MAX < ks * gs.session_bet →
      checked_earnings ks gs.session_bet = .error .ArithmeticError) := by
  constructor
  · intro s v hok
    exact (distribute_pay_spawn_ok_paid gs vb fail s v hok).2
  · intro ks h
    unfold checked_earnings
    rw [if_neg (by omega)]

theorem claim_C8_witness :
    (distribute_pay_spawn_earnings sPTSComplete 200 (fun _ => false)).2
      = expected_pay_spawn_payouts sPTSComplete
  ∧ checked_earnings U64_MAX sPTSComplete.session_bet = .error .ArithmeticError :=
  ⟨(claim_C8_pay_spawn_earnings_formula sPTSComplete 200 (fun _ => false) rfl rfl).1
      sPTSComplete 80 (by decide),
   (claim_C8_pay_spawn_earnings_formula sPTSComplete 200 (fun _ => false) rfl rfl).2
      U64_MAX (by decide)⟩

/-- C4: for a Completed WinnerTakesAll session, a successful
DistributeWinnerTakesAll pays each occupied slot of the winning team
exactly bet_amount * 2; and in the concrete 1v1 scenario with bet 1000 and
both players joined, the single winner is paid 2000, the vault (2000)
drops to 0, and the status becomes Distributed. -/
theorem claim_C4_winner_takes_all_payout (gs : GameSession) (wt vb : Nat)
    (fail : Nat → Bool) (hstatus : gs.status = .Completed)
    (hmode : gs.game_mode.is_pay_to_spawn = false) :
    (∀ s v, (distribute_winnings gs wt vb fail).1 = .ok (s, v) →
      (distribute_winnings gs wt vb fail).2
        = (occupied_players (if wt = 0 then gs.team_a else gs.team_b)
            gs.game_mode.players_per_team).map (fun p => (p, gs.session_bet * 2)))
  ∧ distribute_winnings sWTAComplete 0 2000 (fun _ => false)
      = (.ok ({ sWTAComplete with status := .Distributed }, 0), [(1, 2000)]) := by
  constructor
  · intro s v hok
    rcases distribute_winnings_cases gs wt vb fail hstatus with
      ⟨h1, heq⟩ | ⟨h1, h2, heq⟩ | ⟨h1, h2, heq⟩
    · rw [heq] at hok
      exact nomatch hok
    · rw [heq]
      rfl
    · rw [heq] at hok
      exact nomatch hok
  · decide

theorem claim_C4_witness :
    (distribute_winnings sWTAComplete 0 2000 (fun _ => false)).2
      = (occupied_players
          (if (0 : Nat) = 0 then sWTAComplete.team_a else sWTAComplete.team_b)
          sWTAComplete.game_mode.players_per_team).map
            (fun p => (p, sWTAComplete.session_bet * 2)) :=
  (claim_C4_winner_takes_all_payout sWTAComplete 0 2000 (fun _ => false) rfl rfl).1
    { sWTAComplete with status := .Distributed } 0 (by decide)

/-- C7 as amended: the Completed to Distributed transition is performed
only by a fully successful DistributeWinnerTakesAll; when either settlement
fails the instruction persists nothing, so the session remains Completed;
but a fully successful DistributePaySpawnEarnings does NOT advance the
status — it returns the session unchanged, still Completed. -/
theorem claim_C7_amended_status_commit (gs : GameSession) (wt vb : Nat)
    (fail : Nat → Bool) (gp : GameSession) (vbp : Nat) (failp : Nat → Bool)
    (hstatus : gs.status = .Completed) (hp : gp.status = .Completed) :
    (∀ s v, (distribute_winnings gs wt vb fail).1 = .ok (s, v) →
      s.status = .Distributed)
  ∧ (∀ e, (distribute_winnings gs wt vb fail).1 = .error e →
      gs.status = .Completed)
  ∧ (∀ s v, (distribute_pay_spawn_earnings gp vbp failp).1 = .ok (s, v) →
      s = gp ∧ s.status = .Completed) := by
  refine ⟨?_, fun e he => hstatus, ?_⟩
  · intro s v hok
    rcases distribute_winnings_cases gs wt vb fail hstatus with
      ⟨h1, heq⟩ | ⟨h1, h2, heq⟩ | ⟨h1, h2, heq⟩
    · rw [heq] at hok
      exact nomatch hok
    · rw [heq] at hok
      have h := Except.ok.inj hok
      injection h with hs hv
      rw [← hs]
    · rw [heq] at hok
      exact nomatch hok
  · intro s v hok
    obtain ⟨hs, hpaid⟩ := distribute_pay_spawn_ok_paid gp vbp failp s v hok
    exact ⟨hs, hs ▸ hp⟩

theorem claim_C7_witness :
    ({ sWTAComplete with status := GameStatus.Distributed }).status = .Distributed
  ∧ (sPTSComplete = sPTSComplete ∧ sPTSComplete.status = .Completed) :=
  ⟨(claim_C7_amended_status_commit sWTAComplete 0 2000 (fun _ => false)
      sPTSComplete 200 (fun _ => false) rfl rfl).1 _ 0 (by decide),
   (claim_C7_amended_status_commit sWTAComplete 0 2000 (fun _ => false)
      sPTSComplete 200 (fun _ => false) rfl rfl).2.2 sPTSComplete 80 (by decide)⟩

/-- C1 as amended: DistributeWinnerTakesAll (audit appendix A.2) computes
every payout and the total first, fails with InsufficientVaultBalance
executing no transfer at all when the total exceeds the vault balance, and
executes as an all-or-nothing batch (no transfer is retained on any
failure; exactly the full plan is retained on success).
DistributePaySpawnEarnings (the 1.2 fix), in contrast, validates the vault
balance per transfer: the retained transfers always form a prefix of the
expected payouts, equal to the whole list exactly on full success — so when
the total exceeds the vault it may execute and retain a proper prefix
rather than nothing. -/
theorem claim_C1_amended_settlement_discipline (gs : GameSession) (wt vb : Nat)
    (fail : Nat → Bool) (gp : GameSession) (vbp : Nat) (failp : Nat → Bool)
    (hstatus : gs.status = .Completed) :
    (vb < ((winning_team_payouts gs wt).map Prod.snd).sum →
      distribute_winnings gs wt vb fail = (.error .InsufficientVaultBalance, []))
  ∧ (∀ e, (distribute_winnings gs wt vb fail).1 = .error e →
      (distribute_winnings gs wt vb fail).2 = [])
  ∧ (∀ s v, (distribute_winnings gs wt vb fail).1 = .ok (s, v) →
      (distribute_winnings gs wt vb fail).2 = winning_team_payouts gs wt)
  ∧ (∃ n, (distribute_pay_spawn_earnings gp vbp failp).2
        = (expected_pay_spawn_payouts gp).take n)
  ∧ (∀ s v, (distribute_pay_spawn_earnings gp vbp failp).1 = .ok (s, v) →
      (distribute_pay_spawn_earnings gp vbp failp).2
        = expected_pay_spawn_payouts gp) := by
  refine ⟨?_, ?_, ?_, ?_, ?_⟩
  · intro hlt
    rcases distribute_winnings_cases gs wt vb fail hstatus with
      ⟨h1, heq⟩ | ⟨h1, h2, heq⟩ | ⟨h1, h2, heq⟩
    · exact heq
    · exact absurd hlt h1
    · exact absurd hlt h1
  · intro e he
    rcases distribute_winnings_cases gs wt vb fail hstatus with
      ⟨h1, heq⟩ | ⟨h1, h2, heq⟩ | ⟨h1, h2, heq⟩
    · rw [heq]
    · rw [heq] at he
      exact nomatch he
    · rw [heq]
  · intro s v hok
    rcases distribute_winnings_cases gs wt vb fail hstatus with
      ⟨h1, heq⟩ | ⟨h1, h2, heq⟩ | ⟨h1, h2, heq⟩
    · rw [heq] at hok
      exact nomatch hok
    · rw [heq]
    · rw [heq] at hok
      exact nomatch hok
  · obtain ⟨⟨n, hn⟩, hfull⟩ :=
      pay_spawn_loop_spec gp.session_bet failp (pay_spawn_slots gp) 0 vbp []
    refine ⟨n, ?_⟩
    rw [distribute_pay_spawn_paid_eq, hn]
    simp [expected_pay_spawn_payouts]
  · intro s v hok
    exact (distribute_pay_spawn_ok_paid gp vbp failp s v hok).2

theorem claim_C1_witness :
    1999 < ((winning_team_payouts sWTAComplete 0).map Prod.snd).sum
  ∧ distribute_winnings sWTAComplete 0 1999 (fun _ => false)
      = (.error .InsufficientVaultBalance, []) :=
  ⟨by decide, (claim_C1_amended_settlement_discipline sWTAComplete 0 1999
      (fun _ => false) sPTSComplete 100 (fun _ => false) rfl).1 (by decide)⟩

/-- C9: for an InProgress PayToSpawn session and a player occupying a slot
of the named team, PurchaseSpawns increments that player's spawn counter by
the configured spawns_per_purchase field (not a hardcoded constant), and
fails with MaxSpawnsExceeded — leaving the counter unchanged, since a
failed instruction persists nothing — whenever the increment would push the
counter above the configured MAX_SPAWNS_PER_PLAYER cap. -/
theorem claim_C9_spawn_purchase_cap (gs : GameSession) (p team i : Nat)
    (hstatus : gs.status = .InProgress) (hmode : gs.game_mode.is_pay_to_spawn = true)
    (hteam : team = 0 ∨ team = 1)
    (hfind : (List.range gs.game_mode.players_per_team).find?
        (fun j => (if team = 0 then gs.team_a else gs.team_b).players.getD j none
          = some p) = some i)
    (hlen : i < (if team = 0 then gs.team_a else gs.team_b).player_spawns.length) :
    (gs.spawns_at team i + gs.spawns_per_purchase ≤ MAX_SPAWNS_PER_PLAYER →
      ∃ gs', pay_to_spawn gs p team = .ok gs'
        ∧ gs'.spawns_at team i = gs.spawns_at team i + gs.spawns_per_purchase)
  ∧ (MAX_SPAWNS_PER_PLAYER < gs.spawns_at team i + gs.spawns_per_purchase →
      pay_to_spawn gs p team = .error .MaxSpawnsExceeded) := by
  rcases hteam with rfl | rfl <;>
    simp only [eq_self_iff_true, one_ne_zero, zero_ne_one, if_true, if_false, ite_true,
      ite_false, reduceIte] at hfind hlen ⊢ <;>
    simp only [GameSession.spawns_at, eq_self_iff_true, one_ne_zero, zero_ne_one, if_true,
      if_false, ite_true, ite_false, reduceIte] <;>
    simp only [pay_to_spawn, hstatus, hmode, ne_eq, not_true_eq_false, if_false,
      ite_false, not_false_iff, if_true, ite_true, eq_self_iff_true, one_ne_zero,
      zero_ne_one, or_true, true_or, or_false, false_or, not_true, not_false_eq_true,
      reduceIte, hfind, add_spawns] <;>
    split_ifs with hc
  all_goals first
    | exact ⟨fun h => absurd h (by omega), fun h => rfl⟩
    | exact ⟨fun h =>
        ⟨_, rfl, by simp [List.getD_eq_getElem?_getD, List.getElem?_set_self hlen]⟩,
        fun h => absurd hc (by omega)⟩

theorem claim_C9_witness :
    sPTSProg.spawns_at 0 0 + sPTSProg.spawns_per_purchase ≤ MAX_SPAWNS_PER_PLAYER
  ∧ ∃ gs', pay_to_spawn sPTSProg 1 0 = .ok gs'
      ∧ gs'.spawns_at 0 0 = sPTSProg.spawns_at 0 0 + sPTSProg.spawns_per_purchase :=
  ⟨by decide, (claim_C9_spawn_purchase_cap sPTSProg 1 0 0 rfl rfl (Or.inl rfl)
      (by decide) (by decide)).1 (by decide)⟩

end Wager
